import Mathlib

/-!
Verification of the PDF Reader's viewport/coordinate engine
(src/pdf_reader/ui/pdf_viewer.py, src/pdf_reader/core/models.py,
src/pdf_reader/core/utils.py) against its natural-language specification.

The Python code is embedded shallowly: pure fragments become Lean
functions, the stateful methods of PDFViewer become explicit
state-passing functions over small state records holding exactly the
instance fields the method reads and writes.  Machine floats are
modelled by rationals; the Python int() truncation that the code applies
to coordinates is modelled explicitly by pyInt.
-/

namespace PdfReader

/-- ViewMode (core/models.py): the five display modes. -/
inductive ViewMode where
  | SINGLE_PAGE
  | FIT_PAGE
  | FIT_WIDTH
  | DOUBLE_PAGE
  | CONTINUOUS_SCROLL
deriving DecidableEq, Repr

/-- AnnotationType (core/models.py): highlight, underline or text note. -/
inductive AnnotType where
  | HIGHLIGHT
  | UNDERLINE
  | TEXT
deriving DecidableEq, Repr

/-- QPoint: integer point, as stored by the viewer for annotation anchors. -/
structure Point where
  x : Int
  y : Int
deriving DecidableEq, Repr

/-- The Annotation dataclass (core/models.py) after __post_init__ has run:
the end field is a plain point (never null) and text is optional. -/
structure Annot where
  type : AnnotType
  page : Int
  start : Point
  stop : Point
  text : Option String
deriving DecidableEq, Repr

/-- Construction of an Annotation (core/models.py lines 39-54): the
dataclass constructor followed by __post_init__, which replaces a missing
end point by the start point and forces text to None for non-TEXT types. -/
def mkAnnot (type : AnnotType) (page : Int) (start : Point)
    (stop : Option Point) (text : Option String) : Annot :=
  { type := type
    page := page
    start := start
    stop := stop.getD start
    text := if type ≠ AnnotType.TEXT then none else text }

/-- SearchResult (pdf_viewer.py lines 24-28): a match's page index and its
rectangle (x0, y0, x1, y1) in base document units. -/
structure SearchResult where
  page : Int
  rect : ℚ × ℚ × ℚ × ℚ
deriving DecidableEq, Repr

/-- The search-state fragment of PDFViewer: the stored match list and the
cursor current_search_index (-1 when no match is current). -/
structure SearchState where
  search_results : List SearchResult
  current_search_index : Int
deriving DecidableEq, Repr

/-- navigate_search (pdf_viewer.py lines 334-346), restricted to the fields
it updates: with no results it returns without changes; otherwise it sets
current_search_index := (index ± 1) % len(results) (Python's %, which is
nonnegative for a positive modulus, matching Int.emod).  The subsequent
jump_to_page / redraw calls do not touch the search state. -/
def navigate_search (s : SearchState) (forward : Bool) : SearchState :=
  if s.search_results = [] then s
  else
    { s with current_search_index :=
        (s.current_search_index + (if forward then 1 else -1))
          % (s.search_results.length : Int) }

theorem navigate_search_results_eq (s : SearchState) (forward : Bool) :
    (navigate_search s forward).search_results = s.search_results := by
  unfold navigate_search
  split <;> rfl

theorem navigate_search_index_forward (s : SearchState)
    (h : s.search_results ≠ []) :
    (navigate_search s true).current_search_index =
      (s.current_search_index + 1) % (s.search_results.length : Int) := by
  unfold navigate_search
  simp [h]

theorem navigate_search_iterate_results (s : SearchState) (j : ℕ) :
    ((fun t => navigate_search t true)^[j] s).search_results =
      s.search_results := by
  induction j with
  | zero => rfl
  | succ n ih =>
      rw [Function.iterate_succ_apply', navigate_search_results_eq, ih]

theorem navigate_search_iterate_index (s : SearchState)
    (h : s.search_results ≠ []) (j : ℕ) :
    ((fun t => navigate_search t true)^[j + 1] s).current_search_index =
      (s.current_search_index + (j + 1)) % (s.search_results.length : Int) := by
  induction j with
  | zero =>
      rw [Function.iterate_one]
      exact navigate_search_index_forward s h
  | succ n ih =>
      have hres := navigate_search_iterate_results s (n + 1)
      rw [Function.iterate_succ_apply' (fun t => navigate_search t true) (n + 1) s,
        navigate_search_index_forward _ (by rw [hres]; exact h), hres, ih]
      rw [Int.emod_add_emod]
      congr 1
      push_cast
      ring

/-- A concrete viewer search state with two matches and no current match. -/
def twoMatchState : SearchState :=
  { search_results := [⟨0, (0, 0, 1, 1)⟩, ⟨1, (0, 0, 1, 1)⟩]
    current_search_index := -1 }

/-- Claim C3 (counterexample): with k = 2 matches, calling
navigate_search(forward=True) twice from current_search_index = -1 leaves
the index at 1 (the last match), not back at the first match (index 0). -/
theorem c3_search_cycling_counterexample :
    ((fun t => navigate_search t true)^[2] twoMatchState).current_search_index
        = 1 ∧
    ¬ ((fun t => navigate_search t true)^[2]
        twoMatchState).current_search_index = 0 := by
  constructor
  · rfl
  · decide

/-- Claim C3 (amended): each navigate_search(forward=True) call advances
current_search_index as (i + 1) mod k, so from index -1 the k-th call lands
on the last match (index k - 1); it takes k + 1 calls, not k, to return to
the first match (index 0). -/
theorem c3_search_cycling (s : SearchState) (h : s.search_results ≠ [])
    (hidx : s.current_search_index = -1) :
    ((fun t => navigate_search t true)^[s.search_results.length]
        s).current_search_index = (s.search_results.length : Int) - 1 ∧
    ((fun t => navigate_search t true)^[s.search_results.length + 1]
        s).current_search_index = 0 := by
  have hk : 0 < s.search_results.length := List.length_pos.mpr h
  obtain ⟨m, hm⟩ : ∃ m, s.search_results.length = m + 1 :=
    ⟨s.search_results.length - 1, (Nat.succ_pred_eq_of_pos hk).symm⟩
  constructor
  · rw [hm, navigate_search_iterate_index s h m, hidx, hm]
    have harg : (-1 : ℤ) + ((m : ℤ) + 1) = (m : ℤ) := by ring
    push_cast
    rw [harg, Int.emod_eq_of_lt (by positivity) (by omega)]
    ring
  · rw [hm, navigate_search_iterate_index s h (m + 1), hidx, hm]
    have harg : (-1 : ℤ) + ((m : ℤ) + 1 + 1) = 1 * ((m : ℤ) + 1) := by ring
    push_cast
    rw [harg, Int.mul_emod_left]

/-- Witness for c3_search_cycling at the concrete two-match state. -/
theorem c3_search_cycling_witness :
    ((fun t => navigate_search t true)^[twoMatchState.search_results.length]
        twoMatchState).current_search_index =
      (twoMatchState.search_results.length : Int) - 1 ∧
    ((fun t => navigate_search t true)^[twoMatchState.search_results.length + 1]
        twoMatchState).current_search_index = 0 :=
  c3_search_cycling twoMatchState (by decide) (by decide)

/-- Python's int() applied to a float/rational: truncation toward zero. -/
def pyInt (q : ℚ) : Int := if 0 ≤ q then ⌊q⌋ else ⌈q⌉

/-- Base-to-screen conversion used by _draw_annotations (pdf_viewer.py
lines 1226-1233): a stored base coordinate is multiplied by the current
zoom and truncated to int for drawing on the page pixmap. -/
def draw_scaled (c : Int) (zoom : ℚ) : Int := pyInt ((c : ℚ) * zoom)

/-- _get_pdf_position (pdf_viewer.py lines 1323-1348), one call: subtract
the letterbox centering offset from the widget position, return the widget
position unchanged when the adjusted point falls outside the pixmap,
otherwise divide by the current zoom and truncate to int. -/
def get_pdf_position (current_zoom : ℚ) (offset_x offset_y pix_w pix_h : Int)
    (widget_pos : Point) : Point :=
  if 0 ≤ widget_pos.x - offset_x ∧ widget_pos.x - offset_x < pix_w ∧
      0 ≤ widget_pos.y - offset_y ∧ widget_pos.y - offset_y < pix_h then
    { x := pyInt (((widget_pos.x - offset_x : Int) : ℚ) / current_zoom)
      y := pyInt (((widget_pos.y - offset_y : Int) : ℚ) / current_zoom) }
  else widget_pos

/-- Claim C1 (counterexample): at base point (1,1) and zoom 1/2 (no
letterbox offset, a 10x10 pixmap), drawing multiplies and truncates to
screen point (0,0), and _get_pdf_position maps it back to (0,0), a full
base unit away from (1,1) — the round trip is not the identity up to
floating-point epsilon. -/
theorem c1_round_trip_counterexample :
    get_pdf_position (1 / 2) 0 0 10 10
        ⟨0 + draw_scaled 1 (1 / 2), 0 + draw_scaled 1 (1 / 2)⟩
      = ({ x := 0, y := 0 } : Point) ∧
    ¬ get_pdf_position (1 / 2) 0 0 10 10
        ⟨0 + draw_scaled 1 (1 / 2), 0 + draw_scaled 1 (1 / 2)⟩
      = ({ x := 1, y := 1 } : Point) := by
  have h1 : draw_scaled 1 (1 / 2) = 0 := by
    unfold draw_scaled pyInt
    norm_num
  have h2 : get_pdf_position (1 / 2) 0 0 10 10
      ⟨0 + draw_scaled 1 (1 / 2), 0 + draw_scaled 1 (1 / 2)⟩
      = ({ x := 0, y := 0 } : Point) := by
    rw [h1]
    unfold get_pdf_position pyInt
    norm_num
  refine ⟨h2, fun hcontra => ?_⟩
  rw [h2] at hcontra
  simp [Point.mk.injEq] at hcontra

theorem round_trip_axis (c : Int) (z : ℚ) (hz : 0 < z) (hc : 0 ≤ c) :
    pyInt (((draw_scaled c z : Int) : ℚ) / z) ≤ c ∧
    (c : ℚ) - ((pyInt (((draw_scaled c z : Int) : ℚ) / z) : Int) : ℚ)
      < 1 + 1 / z := by
  have hcz : 0 ≤ (c : ℚ) * z :=
    mul_nonneg (by exact_mod_cast hc) hz.le
  have hs : draw_scaled c z = ⌊(c : ℚ) * z⌋ := by
    unfold draw_scaled pyInt
    rw [if_pos hcz]
  have hs0 : (0 : ℚ) ≤ ((draw_scaled c z : Int) : ℚ) := by
    rw [hs]
    exact_mod_cast Int.floor_nonneg.mpr hcz
  have hq0 : 0 ≤ ((draw_scaled c z : Int) : ℚ) / z := div_nonneg hs0 hz.le
  have hr : pyInt (((draw_scaled c z : Int) : ℚ) / z) =
      ⌊((draw_scaled c z : Int) : ℚ) / z⌋ := by
    unfold pyInt
    rw [if_pos hq0]
  constructor
  · rw [hr]
    have hle : ((draw_scaled c z : Int) : ℚ) / z ≤ (c : ℚ) := by
      rw [div_le_iff₀ hz, hs]
      exact Int.floor_le _
    calc ⌊((draw_scaled c z : Int) : ℚ) / z⌋ ≤ ⌊(c : ℚ)⌋ :=
          Int.floor_le_floor hle
      _ = c := Int.floor_intCast c
  · rw [hr]
    have hlow : (c : ℚ) - 1 / z < ((draw_scaled c z : Int) : ℚ) / z := by
      rw [hs]
      have h1 : (c : ℚ) * z - 1 < (⌊(c : ℚ) * z⌋ : ℚ) := Int.sub_one_lt_floor _
      have h2 : ((c : ℚ) * z - 1) / z < ((⌊(c : ℚ) * z⌋ : Int) : ℚ) / z :=
        (div_lt_div_iff_of_pos_right hz).mpr h1
      calc (c : ℚ) - 1 / z = ((c : ℚ) * z - 1) / z := by field_simp
        _ < _ := h2
    have hfl : ((draw_scaled c z : Int) : ℚ) / z - 1 <
        ((⌊((draw_scaled c z : Int) : ℚ) / z⌋ : Int) : ℚ) :=
      Int.sub_one_lt_floor _
    linarith

/-- Claim C1 (amended): the screen-to-base round trip of annotation
drawing followed by _get_pdf_position is the identity only up to the int()
truncation quantization, not up to floating-point epsilon: for every base
point p with nonnegative coordinates and zoom z > 0 (the scaled point
landing inside the pixmap), the recovered point never overshoots p and
undershoots each coordinate by strictly less than 1 + 1/z base units. -/
theorem c1_round_trip (p : Point) (z : ℚ) (offset_x offset_y pix_w pix_h : Int)
    (hz : 0 < z) (hx : 0 ≤ p.x) (hy : 0 ≤ p.y)
    (hbx : draw_scaled p.x z < pix_w) (hby : draw_scaled p.y z < pix_h) :
    (get_pdf_position z offset_x offset_y pix_w pix_h
        ⟨offset_x + draw_scaled p.x z, offset_y + draw_scaled p.y z⟩).x ≤ p.x ∧
    (get_pdf_position z offset_x offset_y pix_w pix_h
        ⟨offset_x + draw_scaled p.x z, offset_y + draw_scaled p.y z⟩).y ≤ p.y ∧
    (p.x : ℚ) - ((get_pdf_position z offset_x offset_y pix_w pix_h
        ⟨offset_x + draw_scaled p.x z, offset_y + draw_scaled p.y z⟩).x : ℚ)
      < 1 + 1 / z ∧
    (p.y : ℚ) - ((get_pdf_position z offset_x offset_y pix_w pix_h
        ⟨offset_x + draw_scaled p.x z, offset_y + draw_scaled p.y z⟩).y : ℚ)
      < 1 + 1 / z := by
  have hsx0 : 0 ≤ draw_scaled p.x z := by
    unfold draw_scaled pyInt
    rw [if_pos (mul_nonneg (by exact_mod_cast hx) hz.le)]
    exact Int.floor_nonneg.mpr (mul_nonneg (by exact_mod_cast hx) hz.le)
  have hsy0 : 0 ≤ draw_scaled p.y z := by
    unfold draw_scaled pyInt
    rw [if_pos (mul_nonneg (by exact_mod_cast hy) hz.le)]
    exact Int.floor_nonneg.mpr (mul_nonneg (by exact_mod_cast hy) hz.le)
  have heq : get_pdf_position z offset_x offset_y pix_w pix_h
      ⟨offset_x + draw_scaled p.x z, offset_y + draw_scaled p.y z⟩ =
      { x := pyInt (((draw_scaled p.x z : Int) : ℚ) / z)
        y := pyInt (((draw_scaled p.y z : Int) : ℚ) / z) } := by
    unfold get_pdf_position
    simp only [add_sub_cancel_left]
    rw [if_pos ⟨hsx0, hbx, hsy0, hby⟩]
  rw [heq]
  obtain ⟨hxa, hxb⟩ := round_trip_axis p.x z hz hx
  obtain ⟨hya, hyb⟩ := round_trip_axis p.y z hz hy
  exact ⟨hxa, hya, hxb, hyb⟩

/-- Witness for c1_round_trip at p = (3,4), z = 2, offsets (5,7),
pixmap 100x100. -/
theorem c1_round_trip_witness :
    (get_pdf_position 2 5 7 100 100
        ⟨5 + draw_scaled 3 2, 7 + draw_scaled 4 2⟩).x ≤ 3 ∧
    (get_pdf_position 2 5 7 100 100
        ⟨5 + draw_scaled 3 2, 7 + draw_scaled 4 2⟩).y ≤ 4 ∧
    ((3 : Int) : ℚ) - ((get_pdf_position 2 5 7 100 100
        ⟨5 + draw_scaled 3 2, 7 + draw_scaled 4 2⟩).x : ℚ) < 1 + 1 / 2 ∧
    ((4 : Int) : ℚ) - ((get_pdf_position 2 5 7 100 100
        ⟨5 + draw_scaled 3 2, 7 + draw_scaled 4 2⟩).y : ℚ) < 1 + 1 / 2 :=
  c1_round_trip ⟨3, 4⟩ 2 5 7 100 100 (by norm_num) (by decide) (by decide)
    (by unfold draw_scaled pyInt; norm_num) (by unfold draw_scaled pyInt; norm_num)

/-- Claim C9: every constructed Annotation satisfies the normalization
invariant of __post_init__: a missing end point is replaced by the start
point (so the end field is never null), and a non-TEXT annotation's text is
forced to None regardless of what the caller passed; a TEXT annotation
keeps the caller's text. -/
theorem c9_annotation_normalized (t : AnnotType) (p : Int) (s : Point)
    (e : Option Point) (tx : Option String) :
    (e = none → (mkAnnot t p s e tx).stop = s) ∧
    (t ≠ AnnotType.TEXT → (mkAnnot t p s e tx).text = none) ∧
    (t = AnnotType.TEXT → (mkAnnot t p s e tx).text = tx) := by
  refine ⟨fun he => ?_, fun ht => ?_, fun ht => ?_⟩
  · simp [mkAnnot, he]
  · simp [mkAnnot, ht]
  · simp [mkAnnot, ht]

/-- Witness for c9_annotation_normalized: a HIGHLIGHT built with no end
point and a stray text gets end = start and text = none. -/
theorem c9_annotation_normalized_witness :
    (mkAnnot AnnotType.HIGHLIGHT 2 ⟨10, 20⟩ none (some "stray")).stop
        = (⟨10, 20⟩ : Point) ∧
    (mkAnnot AnnotType.HIGHLIGHT 2 ⟨10, 20⟩ none (some "stray")).text
        = none :=
  ⟨(c9_annotation_normalized AnnotType.HIGHLIGHT 2 ⟨10, 20⟩ none
      (some "stray")).1 rfl,
   (c9_annotation_normalized AnnotType.HIGHLIGHT 2 ⟨10, 20⟩ none
      (some "stray")).2.1 (by decide)⟩

/-- The Bookmark dataclass (core/models.py lines 26-36). -/
structure Bookmark where
  title : String
  page_number : Int
  file_path : String
  created_at : Option String
deriving DecidableEq, Repr

/-- The bookmark-related fragment of PDFViewer state: the loaded
document's page count, the file path (empty string when falsy), the
current page and the stored _bookmarks list. -/
structure BookmarkState where
  page_count : Int
  file_path : String
  current_page : Int
  bookmarks : List Bookmark
deriving DecidableEq, Repr

/-- add_bookmark (pdf_viewer.py lines 1073-1106): guard on a loaded
document and nonempty file path, default the page to current_page,
range-check it, default the title to "Page (n+1)" when falsy, refuse a
duplicate page, otherwise append and re-sort by page number.  Python's
stable list.sort keyed on page_number is modelled by insertionSort on the
same key (pages in the list are pairwise distinct, so stability never
distinguishes the two). -/
def sort_bookmarks (l : List Bookmark) : List Bookmark :=
  List.insertionSort (fun a b => a.page_number ≤ b.page_number) l

def add_bookmark (s : BookmarkState) (title : Option String)
    (page_number : Option Int) (now : String) : BookmarkState × Bool :=
  if s.file_path = "" then (s, false)
  else
    let page_num := page_number.getD s.current_page
    if ¬ (0 ≤ page_num ∧ page_num < s.page_count) then (s, false)
    else
      let title' :=
        match title with
        | none => "Page " ++ toString (page_num + 1)
        | some t => if t = "" then "Page " ++ toString (page_num + 1) else t
      if s.bookmarks.any (fun b => b.page_number = page_num) then (s, false)
      else
        let newb : Bookmark :=
          { title := title', page_number := page_num,
            file_path := s.file_path, created_at := some now }
        ({ s with bookmarks := sort_bookmarks (s.bookmarks ++ [newb]) }, true)

theorem add_bookmark_of_dup (s : BookmarkState) (title : Option String)
    (p : Int) (now : String) (hfp : ¬ s.file_path = "")
    (hdup : s.bookmarks.any (fun b => b.page_number = p) = true) :
    add_bookmark s title (some p) now = (s, false) := by
  unfold add_bookmark
  rw [if_neg hfp]
  simp only [Option.getD_some]
  by_cases hr : 0 ≤ p ∧ p < s.page_count
  · rw [if_neg (not_not_intro hr)]
    simp [hdup]
  · rw [if_pos hr]

/-- Claim C5: with a loaded document, a valid page p carrying no bookmark
yet, adding a bookmark for p twice in a row returns true then false, the
stored list then contains exactly one entry for p, and since no title was
supplied that entry's title is derived from the 1-based page number. -/
theorem c5_bookmark_uniqueness (s : BookmarkState) (p : Int) (t₁ t₂ : String)
    (hfp : ¬ s.file_path = "")
    (hlo : 0 ≤ p) (hhi : p < s.page_count)
    (hnone : s.bookmarks.countP (fun b => b.page_number = p) = 0) :
    (add_bookmark s none (some p) t₁).2 = true ∧
    (add_bookmark (add_bookmark s none (some p) t₁).1 none (some p) t₂).2
        = false ∧
    ((add_bookmark (add_bookmark s none (some p) t₁).1 none (some p)
        t₂).1.bookmarks.countP (fun b => b.page_number = p)) = 1 ∧
    (∀ b ∈ (add_bookmark s none (some p) t₁).1.bookmarks,
        b.page_number = p → b.title = "Page " ++ toString (p + 1)) := by
  have hall : ∀ b ∈ s.bookmarks, ¬ (b.page_number = p) := by
    intro b hb
    have := List.countP_eq_zero.mp hnone b hb
    simpa using this
  have hany : s.bookmarks.any (fun b => b.page_number = p) = false := by
    rw [List.any_eq_false]
    intro b hb
    simpa using hall b hb
  set newb : Bookmark :=
    { title := "Page " ++ toString (p + 1), page_number := p,
      file_path := s.file_path, created_at := some t₁ } with hnewb
  have hfirst : add_bookmark s none (some p) t₁ =
      ({ s with bookmarks := sort_bookmarks (s.bookmarks ++ [newb]) }, true) := by
    unfold add_bookmark
    rw [if_neg hfp]
    simp only [Option.getD_some]
    rw [if_neg (not_not_intro ⟨hlo, hhi⟩), hany]
    simp
  have hperm : List.Perm (sort_bookmarks (s.bookmarks ++ [newb]))
      (s.bookmarks ++ [newb]) :=
    List.perm_insertionSort _ _
  have hmem : newb ∈ (add_bookmark s none (some p) t₁).1.bookmarks := by
    rw [hfirst]
    exact hperm.mem_iff.mpr (List.mem_append_right _ (List.mem_singleton.mpr rfl))
  have hsecond : (add_bookmark (add_bookmark s none (some p) t₁).1 none
      (some p) t₂) = ((add_bookmark s none (some p) t₁).1, false) := by
    apply add_bookmark_of_dup
    · rw [hfirst]
      exact hfp
    · rw [List.any_eq_true]
      exact ⟨newb, hmem, by simp⟩
  refine ⟨by rw [hfirst], by rw [hsecond], ?_, ?_⟩
  · rw [hsecond, hfirst]
    have := hperm.countP_eq (fun b => decide (b.page_number = p))
    simp only [this]
    rw [List.countP_append]
    rw [hnone]
    simp [hnewb]
  · intro b hb hbp
    rw [hfirst] at hb
    have hb' : b ∈ s.bookmarks ++ [newb] := hperm.mem_iff.mp hb
    rcases List.mem_append.mp hb' with hb1 | hb2
    · exact absurd hbp (hall b hb1)
    · rw [List.mem_singleton.mp hb2]

/-- Witness for c5_bookmark_uniqueness: empty bookmark list, page 3 of a
10-page document. -/
theorem c5_bookmark_uniqueness_witness :
    (add_bookmark ⟨10, "doc.pdf", 0, []⟩ none (some 3) "now1").2 = true ∧
    (add_bookmark (add_bookmark ⟨10, "doc.pdf", 0, []⟩ none (some 3)
        "now1").1 none (some 3) "now2").2 = false ∧
    ((add_bookmark (add_bookmark ⟨10, "doc.pdf", 0, []⟩ none (some 3)
        "now1").1 none (some 3)
        "now2").1.bookmarks.countP (fun b => b.page_number = 3)) = 1 ∧
    (∀ b ∈ (add_bookmark ⟨10, "doc.pdf", 0, []⟩ none (some 3)
        "now1").1.bookmarks,
        b.page_number = 3 → b.title = "Page " ++ toString (3 + 1 : Int)) :=
  c5_bookmark_uniqueness ⟨10, "doc.pdf", 0, []⟩ 3 "now1" "now2"
    (by decide) (by decide) (by decide) (by decide)

/-- The navigation fragment of PDFViewer state: current page, view mode
and the vertical scroll position of the scroll area. -/
structure NavState where
  current_page : Int
  view_mode : ViewMode
  scroll_value : Int
deriving DecidableEq, Repr

/-- The Qt signals the navigation methods can emit. -/
inductive Signal where
  | current_page_changed (page : Int)
  | current_page_changed_in_continuous_scroll (page : Int)
  | view_mode_changed (mode : ViewMode)
deriving DecidableEq, Repr

/-- The layout facts jump_to_page consults: the document's page count, the
per-page pixel heights of _page_geometries at the continuous render zoom,
the layout's top margin and spacing, and the scrollbar's maximum. -/
structure LayoutEnv where
  page_count : Int
  heights : List Int
  margin_top : Int
  spacing : Int
  scroll_max : Int
deriving DecidableEq, Repr

/-- The scroll target computed by jump_to_page (lines 1000-1005): the top
margin plus (height + spacing) for every page before page_num. -/
def target_y (env : LayoutEnv) (page_num : Int) : Int :=
  env.margin_top +
    ((env.heights.take page_num.toNat).map (fun h => h + env.spacing)).sum

/-- jump_to_page (pdf_viewer.py lines 985-1061): no document or an index
outside [0, pageCount) returns immediately with no state change and no
signal.  Otherwise current_page is set; in CONTINUOUS_SCROLL the scroll
bar is moved to target_y when the scroll area is ready (scroll_max > 0;
otherwise the retry timers are scheduled and the position is unchanged
within this call) and the continuous-scroll signal is emitted; in
DOUBLE_PAGE an odd target is snapped down by one.  A trailing
current_page_changed fires only if the page actually changed. -/
def jump_to_page (doc : Bool) (env : LayoutEnv) (s : NavState)
    (page_num : Int) : NavState × List Signal :=
  if doc = false ∨ ¬ (0 ≤ page_num ∧ page_num < env.page_count) then (s, [])
  else
    let old_page := s.current_page
    if s.view_mode = ViewMode.CONTINUOUS_SCROLL then
      let scroll' := if env.scroll_max > 0 then target_y env page_num
        else s.scroll_value
      let s' : NavState :=
        { s with current_page := page_num, scroll_value := scroll' }
      (s', Signal.current_page_changed_in_continuous_scroll page_num ::
        (if old_page ≠ page_num then [Signal.current_page_changed page_num]
         else []))
    else
      let snapped := if s.view_mode = ViewMode.DOUBLE_PAGE ∧ page_num % 2 ≠ 0
        then max 0 (page_num - 1) else page_num
      let s' : NavState := { s with current_page := snapped }
      (s', if old_page ≠ snapped then [Signal.current_page_changed snapped]
        else [])

/-- set_view_mode (pdf_viewer.py lines 785-840), navigation fragment: no
document or an unchanged mode without force_setup returns unchanged.
Entering CONTINUOUS_SCROLL keeps the backed-up current page and jumps to
it (the geometry rebuild of _setup_continuous_view only touches
zoom/geometry state and its delayed jump targets the same page); any other
target mode restores the backed-up page and, for DOUBLE_PAGE, snaps an odd
page greater than zero down by one.  A view_mode_changed signal is emitted
at the end of every non-early-return path. -/
def set_view_mode (doc : Bool) (env : LayoutEnv) (s : NavState)
    (mode : ViewMode) (force_setup : Bool) : NavState × List Signal :=
  if doc = false then (s, [])
  else if s.view_mode = mode ∧ force_setup = false then (s, [])
  else
    let backup := s.current_page
    let s1 : NavState := { s with view_mode := mode }
    if mode = ViewMode.CONTINUOUS_SCROLL then
      let r := jump_to_page doc env s1 backup
      (r.1, r.2 ++ [Signal.view_mode_changed mode])
    else
      let page2 := if mode = ViewMode.DOUBLE_PAGE ∧ backup % 2 ≠ 0 ∧ backup > 0
        then backup - 1 else backup
      ({ s1 with current_page := page2 }, [Signal.view_mode_changed mode])

/-- next_page (pdf_viewer.py lines 915-956): advance by two in DOUBLE_PAGE
and one otherwise when room remains; from the last even spread of an
odd-length document advance once onto the trailing page; in
CONTINUOUS_SCROLL the advance goes through jump_to_page plus an extra
continuous-scroll signal; a trailing current_page_changed fires if the
page changed. -/
def next_page (doc : Bool) (env : LayoutEnv) (s : NavState) :
    NavState × List Signal :=
  if doc = false then (s, [])
  else
    let old_page := s.current_page
    let inc : Int := if s.view_mode = ViewMode.DOUBLE_PAGE then 2 else 1
    let r : NavState × List Signal :=
      if s.current_page < env.page_count - inc then
        let s1 : NavState := { s with current_page := s.current_page + inc }
        if s.view_mode = ViewMode.CONTINUOUS_SCROLL then
          let j := jump_to_page doc env s1 s1.current_page
          (j.1, j.2 ++ [Signal.current_page_changed_in_continuous_scroll
            s1.current_page])
        else
          (s1, [Signal.current_page_changed s1.current_page])
      else if s.view_mode = ViewMode.DOUBLE_PAGE ∧
          s.current_page = env.page_count - 2 ∧ env.page_count % 2 = 1 then
        let s1 : NavState := { s with current_page := s.current_page + 1 }
        (s1, [Signal.current_page_changed s1.current_page])
      else if s.view_mode ≠ ViewMode.DOUBLE_PAGE ∧
          s.current_page < env.page_count - 1 then
        let s1 : NavState := { s with current_page := s.current_page + 1 }
        if s.view_mode = ViewMode.CONTINUOUS_SCROLL then
          let j := jump_to_page doc env s1 s1.current_page
          (j.1, j.2 ++ [Signal.current_page_changed_in_continuous_scroll
            s1.current_page])
        else
          (s1, [Signal.current_page_changed s1.current_page])
      else (s, [])
    (r.1, r.2 ++ (if old_page ≠ r.1.current_page
      then [Signal.current_page_changed r.1.current_page] else []))

/-- prev_page (pdf_viewer.py lines 958-978): step back by two in
DOUBLE_PAGE and one otherwise, clamped at zero; the continuous path goes
through jump_to_page; a trailing current_page_changed fires if the page
changed. -/
def prev_page (doc : Bool) (env : LayoutEnv) (s : NavState) :
    NavState × List Signal :=
  if doc = false then (s, [])
  else
    let old_page := s.current_page
    let dec : Int := if s.view_mode = ViewMode.DOUBLE_PAGE then 2 else 1
    let r : NavState × List Signal :=
      if s.current_page > 0 then
        let s1 : NavState := { s with current_page := max 0 (s.current_page - dec) }
        if s.view_mode = ViewMode.CONTINUOUS_SCROLL then
          let j := jump_to_page doc env s1 s1.current_page
          (j.1, j.2 ++ [Signal.current_page_changed_in_continuous_scroll
            s1.current_page])
        else (s1, [])
      else (s, [])
    (r.1, r.2 ++ (if old_page ≠ r.1.current_page
      then [Signal.current_page_changed r.1.current_page] else []))

/-- Claim C7: for a page index outside [0, pageCount), or with no document
loaded, jump_to_page is a no-op: the returned state (current page, view
mode, scroll position) is the input state and no signal is emitted. -/
theorem c7_jump_to_page_out_of_range_noop (doc : Bool) (env : LayoutEnv)
    (s : NavState) (p : Int)
    (h : doc = false ∨ p < 0 ∨ env.page_count ≤ p) :
    jump_to_page doc env s p = (s, []) := by
  unfold jump_to_page
  rw [if_pos]
  rcases h with h | h | h
  · exact Or.inl h
  · exact Or.inr (by omega)
  · exact Or.inr (by omega)

/-- Witness for c7_jump_to_page_out_of_range_noop: jumping to page 7 of a
5-page document changes nothing and emits nothing. -/
theorem c7_jump_to_page_out_of_range_noop_witness :
    jump_to_page true ⟨5, [10, 10, 10, 10, 10], 5, 10, 100⟩
        ⟨2, ViewMode.SINGLE_PAGE, 0⟩ 7
      = (⟨2, ViewMode.SINGLE_PAGE, 0⟩, []) :=
  c7_jump_to_page_out_of_range_noop true ⟨5, [10, 10, 10, 10, 10], 5, 10, 100⟩
    ⟨2, ViewMode.SINGLE_PAGE, 0⟩ 7 (by right; right; norm_num)

theorem jump_to_page_view_mode (doc : Bool) (env : LayoutEnv) (s : NavState)
    (p : Int) : (jump_to_page doc env s p).1.view_mode = s.view_mode := by
  unfold jump_to_page
  split_ifs <;> rfl

theorem next_page_view_mode (doc : Bool) (env : LayoutEnv) (s : NavState) :
    (next_page doc env s).1.view_mode = s.view_mode := by
  unfold next_page
  repeat' split
  all_goals try simp_all [jump_to_page_view_mode]
  all_goals repeat' split
  all_goals simp_all [jump_to_page_view_mode]

/-- The double-page parity invariant of the view-mode state machine: in
DOUBLE_PAGE mode the current page is even, except possibly for the
trailing page of an odd-length document. -/
def double_parity_inv (count : Int) (s : NavState) : Prop :=
  s.view_mode = ViewMode.DOUBLE_PAGE →
    (s.current_page % 2 = 0 ∨ (s.current_page = count - 1 ∧ count % 2 = 1))

/-- Claim C4: entering DOUBLE_PAGE via set_view_mode snaps an odd current
page down by one, leaving the page even; next_page preserves the parity
invariant (even unless on the odd trailing page of an odd-length
document); and leaving DOUBLE_PAGE for any other mode preserves
current_page unchanged. -/
theorem c4_double_page_parity :
    (∀ (env : LayoutEnv) (s : NavState) (f : Bool),
      s.view_mode ≠ ViewMode.DOUBLE_PAGE → 0 ≤ s.current_page →
      (set_view_mode true env s ViewMode.DOUBLE_PAGE f).1.current_page % 2 = 0
        ∧ (s.current_page % 2 ≠ 0 →
          (set_view_mode true env s ViewMode.DOUBLE_PAGE f).1.current_page
            = s.current_page - 1)) ∧
    (∀ (doc : Bool) (env : LayoutEnv) (s : NavState),
      double_parity_inv env.page_count s →
      double_parity_inv env.page_count (next_page doc env s).1) ∧
    (∀ (env : LayoutEnv) (s : NavState) (mode : ViewMode) (f : Bool),
      s.view_mode = ViewMode.DOUBLE_PAGE → mode ≠ ViewMode.DOUBLE_PAGE →
      (set_view_mode true env s mode f).1.current_page = s.current_page) := by
  refine ⟨?_, ?_, ?_⟩
  · intro env s f hmode hpos
    unfold set_view_mode
    rw [if_neg (by simp)]
    rw [if_neg (by simp [hmode])]
    rw [if_neg (by decide)]
    constructor
    · by_cases hodd : s.current_page % 2 ≠ 0 ∧ s.current_page > 0
      · rw [if_pos ⟨rfl, hodd⟩]
        simp only
        omega
      · rw [if_neg (by tauto)]
        simp only
        omega
    · intro hodd
      rw [if_pos ⟨rfl, hodd, by omega⟩]
  · intro doc env s hinv hmode'
    rw [next_page_view_mode] at hmode'
    have heven : s.current_page % 2 = 0 ∨
        (s.current_page = env.page_count - 1 ∧ env.page_count % 2 = 1) :=
      hinv hmode'
    obtain ⟨page, vm, scroll⟩ := s
    simp only at hmode' heven
    subst hmode'
    unfold next_page
    repeat' split
    all_goals try simp_all
    all_goals try omega
    all_goals repeat' split
    all_goals try simp_all
    all_goals omega
  · intro env s mode f hdp hmode
    have hguard : ¬ (s.view_mode = mode ∧ f = false) := by
      intro hcontra
      rw [hdp] at hcontra
      exact hmode hcontra.1.symm
    unfold set_view_mode
    rw [if_neg (by simp)]
    rw [if_neg hguard]
    by_cases hc : mode = ViewMode.CONTINUOUS_SCROLL
    · rw [if_pos hc]
      unfold jump_to_page
      split_ifs <;> simp
    · rw [if_neg hc]
      have hno : ¬ (mode = ViewMode.DOUBLE_PAGE ∧ s.current_page % 2 ≠ 0 ∧
          s.current_page > 0) := fun h => hmode h.1
      rw [if_neg hno]

/-- Witness for c4_double_page_parity: entering DOUBLE_PAGE from
SINGLE_PAGE at odd page 3 gives page 2; next_page keeps the invariant on a
10-page document; leaving DOUBLE_PAGE at page 2 for SINGLE_PAGE keeps
page 2. -/
theorem c4_double_page_parity_witness :
    (set_view_mode true ⟨10, [], 5, 10, 100⟩ ⟨3, ViewMode.SINGLE_PAGE, 0⟩
        ViewMode.DOUBLE_PAGE false).1.current_page % 2 = 0 ∧
    double_parity_inv (10 : Int)
      (next_page true ⟨10, [], 5, 10, 100⟩ ⟨2, ViewMode.DOUBLE_PAGE, 0⟩).1 ∧
    (set_view_mode true ⟨10, [], 5, 10, 100⟩ ⟨2, ViewMode.DOUBLE_PAGE, 0⟩
        ViewMode.SINGLE_PAGE false).1.current_page = 2 :=
  ⟨(c4_double_page_parity.1 ⟨10, [], 5, 10, 100⟩ ⟨3, ViewMode.SINGLE_PAGE, 0⟩
      false (by decide) (by decide)).1,
   c4_double_page_parity.2.1 true ⟨10, [], 5, 10, 100⟩
     ⟨2, ViewMode.DOUBLE_PAGE, 0⟩ (fun _ => Or.inl (by decide)),
   c4_double_page_parity.2.2 ⟨10, [], 5, 10, 100⟩ ⟨2, ViewMode.DOUBLE_PAGE, 0⟩
     ViewMode.SINGLE_PAGE false rfl (by decide)⟩

/-- render_page FIT_PAGE zoom (pdf_viewer.py lines 709-731): the derived
zoom is min(vw/tw, vh/th) when all four dimensions are positive, else 1.0.
(The double-page widening nested inside this branch is dead code: it tests
view_mode == DOUBLE_PAGE inside the FIT_PAGE case.) -/
def fit_page_zoom (vp_width vp_height target_width target_height : ℚ) : ℚ :=
  if 0 < vp_width ∧ 0 < vp_height ∧ 0 < target_width ∧ 0 < target_height
  then min (vp_width / target_width) (vp_height / target_height)
  else 1

/-- render_page FIT_WIDTH zoom (pdf_viewer.py lines 732-745): vw/tw when
the viewport width and target width are positive, else 1.0; the heights
are never consulted on this path. -/
def fit_width_zoom (vp_width target_width : ℚ) : ℚ :=
  if 0 < vp_width ∧ 0 < target_width then vp_width / target_width else 1

/-- The render zoom render_page derives for the current mode: the fit
modes compute it from the geometry, every other mode keeps zoom_factor. -/
def render_fit_zoom (mode : ViewMode)
    (zoom_factor vp_width vp_height target_width target_height : ℚ) : ℚ :=
  match mode with
  | ViewMode.FIT_PAGE => fit_page_zoom vp_width vp_height target_width target_height
  | ViewMode.FIT_WIDTH => fit_width_zoom vp_width target_width
  | _ => zoom_factor

/-- calculate_zoom_to_fit (core/utils.py lines 159-176): falls back to 1.0
only when a content dimension is exactly zero, otherwise divides. -/
def calculate_zoom_to_fit (content_w content_h vp_w vp_h : ℚ) : ℚ :=
  if content_w = 0 ∨ content_h = 0 then 1
  else min (vp_w / content_w) (vp_h / content_h)

/-- calculate_zoom_to_fit_width (core/utils.py lines 179-193). -/
def calculate_zoom_to_fit_width (content_width vp_width : ℚ) : ℚ :=
  if content_width = 0 then 1 else vp_width / content_width

/-- Claim C6 (counterexample): in FIT_WIDTH mode a zero viewport height
does not force zoom 1.0 — render_page computes vw/tw = 2 without
consulting the heights; and utils.calculate_zoom_to_fit with a negative
content width returns -2, not 1.0, because its guard only catches
dimensions equal to zero. -/
theorem c6_fit_zoom_degenerate_counterexample :
    render_fit_zoom ViewMode.FIT_WIDTH 1 100 0 50 10 = 2 ∧
    ¬ render_fit_zoom ViewMode.FIT_WIDTH 1 100 0 50 10 = 1 ∧
    calculate_zoom_to_fit (-50) 10 100 100 = -2 ∧
    ¬ calculate_zoom_to_fit (-50) 10 100 100 = 1 := by
  refine ⟨?_, ?_, ?_, ?_⟩ <;>
    norm_num [render_fit_zoom, fit_width_zoom, calculate_zoom_to_fit,
      min_def]

/-- Claim C6 (amended): render_page's FIT_PAGE zoom falls back to exactly
1.0 whenever any of the four dimensions is zero or negative and is
min(vw/tw, vh/th) otherwise; its FIT_WIDTH zoom falls back to 1.0 when
the viewport width or target width is zero or negative (the heights are
not consulted on that path) and is vw/tw otherwise; in both modes the
derived zoom is strictly positive and every division has a positive
denominator. -/
theorem c6_fit_zoom_degenerate (vw vh tw th zf : ℚ) :
    ((vw ≤ 0 ∨ vh ≤ 0 ∨ tw ≤ 0 ∨ th ≤ 0) →
        render_fit_zoom ViewMode.FIT_PAGE zf vw vh tw th = 1) ∧
    (0 < vw → 0 < vh → 0 < tw → 0 < th →
        render_fit_zoom ViewMode.FIT_PAGE zf vw vh tw th
          = min (vw / tw) (vh / th)) ∧
    ((vw ≤ 0 ∨ tw ≤ 0) →
        render_fit_zoom ViewMode.FIT_WIDTH zf vw vh tw th = 1) ∧
    (0 < vw → 0 < tw →
        render_fit_zoom ViewMode.FIT_WIDTH zf vw vh tw th = vw / tw) ∧
    (0 < render_fit_zoom ViewMode.FIT_PAGE zf vw vh tw th) ∧
    (0 < render_fit_zoom ViewMode.FIT_WIDTH zf vw vh tw th) := by
  refine ⟨?_, ?_, ?_, ?_, ?_, ?_⟩
  · intro h
    simp only [render_fit_zoom, fit_page_zoom]
    rw [if_neg]
    rintro ⟨h1, h2, h3, h4⟩
    rcases h with h | h | h | h <;> linarith
  · intro h1 h2 h3 h4
    simp only [render_fit_zoom, fit_page_zoom]
    rw [if_pos ⟨h1, h2, h3, h4⟩]
  · intro h
    simp only [render_fit_zoom, fit_width_zoom]
    rw [if_neg]
    rintro ⟨h1, h2⟩
    rcases h with h | h <;> linarith
  · intro h1 h2
    simp only [render_fit_zoom, fit_width_zoom]
    rw [if_pos ⟨h1, h2⟩]
  · simp only [render_fit_zoom, fit_page_zoom]
    split_ifs with h
    · exact lt_min (div_pos h.1 h.2.2.1) (div_pos h.2.1 h.2.2.2)
    · norm_num
  · simp only [render_fit_zoom, fit_width_zoom]
    split_ifs with h
    · exact div_pos h.1 h.2
    · norm_num

/-- Witness for c6_fit_zoom_degenerate at concrete geometries: each
implication's hypothesis is discharged at a suitable concrete input. -/
theorem c6_fit_zoom_degenerate_witness :
    render_fit_zoom ViewMode.FIT_PAGE 1 100 0 50 10 = 1 ∧
    render_fit_zoom ViewMode.FIT_PAGE 1 100 200 50 40
      = min ((100 : ℚ) / 50) ((200 : ℚ) / 40) ∧
    render_fit_zoom ViewMode.FIT_WIDTH 1 0 0 50 10 = 1 ∧
    render_fit_zoom ViewMode.FIT_WIDTH 1 100 0 50 10 = (100 : ℚ) / 50 ∧
    (0 : ℚ) < render_fit_zoom ViewMode.FIT_PAGE 1 100 0 50 10 ∧
    (0 : ℚ) < render_fit_zoom ViewMode.FIT_WIDTH 1 100 0 50 10 :=
  ⟨(c6_fit_zoom_degenerate 100 0 50 10 1).1 (Or.inr (Or.inl (by norm_num))),
   (c6_fit_zoom_degenerate 100 200 50 40 1).2.1 (by norm_num) (by norm_num)
     (by norm_num) (by norm_num),
   (c6_fit_zoom_degenerate 0 0 50 10 1).2.2.1 (Or.inl (by norm_num)),
   (c6_fit_zoom_degenerate 100 0 50 10 1).2.2.2.1 (by norm_num) (by norm_num),
   (c6_fit_zoom_degenerate 100 0 50 10 1).2.2.2.2.1,
   (c6_fit_zoom_degenerate 100 0 50 10 1).2.2.2.2.2⟩

/-- QSize: a fixed pixel size. -/
structure QSize where
  width : Int
  height : Int
deriving DecidableEq, Repr

/-- A slot of the continuous layout at one page index: either the
lightweight spacer left when _page_widgets[i] is None, or a rendered page
label fixed to its size. -/
inductive PageSlot where
  | spacer (size : QSize)
  | widget (size : QSize)
deriving DecidableEq, Repr

/-- One page of the continuous view: the recorded geometry
(_page_geometries[i]) and the layout slot at index i.
_setup_continuous_view appends to _page_geometries and _page_widgets in
lockstep and _clear_continuous_view resets both, so the two lists always
have equal length; pairing them captures that invariant. -/
structure PageEntry where
  geometry : QSize
  slot : PageSlot
deriving DecidableEq, Repr

def slot_size : PageSlot → QSize
  | PageSlot.spacer sz => sz
  | PageSlot.widget sz => sz

/-- The pixel height recorded in _page_geometries for a page. -/
def geom_height (e : PageEntry) : Int := e.geometry.height

/-- Whether _page_widgets[i] is a live widget (True) rather than None; an
out-of-range index counts as no widget, matching the bounds guards. -/
def is_widget (entries : List PageEntry) (i : Nat) : Bool :=
  match entries[i]? with
  | some e =>
    match e.slot with
    | PageSlot.widget _ => true
    | PageSlot.spacer _ => false
  | none => false

/-- _inflate_page (pdf_viewer.py lines 547-586): a no-op when the index is
out of range or the page already has a widget; otherwise the spacer at
index i is replaced by a rendered label fixed (setFixedSize) to the size
recorded in _page_geometries[i]. -/
def inflate_page (entries : List PageEntry) (i : Nat) : List PageEntry :=
  match entries[i]? with
  | some e =>
    match e.slot with
    | PageSlot.spacer _ =>
        entries.set i { e with slot := PageSlot.widget e.geometry }
    | PageSlot.widget _ => entries
  | none => entries

/-- _deflate_page (pdf_viewer.py lines 588-609): a no-op when the index is
out of range or the page is already a spacer; otherwise the widget at
index i is replaced by a QSpacerItem of exactly the width and height
recorded in _page_geometries[i]. -/
def deflate_page (entries : List PageEntry) (i : Nat) : List PageEntry :=
  match entries[i]? with
  | some e =>
    match e.slot with
    | PageSlot.widget _ =>
        entries.set i { e with slot := PageSlot.spacer e.geometry }
    | PageSlot.spacer _ => entries
  | none => entries

/-- _setup_continuous_view (pdf_viewer.py lines 645-688), slot fragment:
every page starts as a spacer of its recorded geometry. -/
def setup_continuous_view (geoms : List QSize) : List PageEntry :=
  geoms.map (fun g => { geometry := g, slot := PageSlot.spacer g })

inductive VirtOp where
  | inflate (i : Nat)
  | deflate (i : Nat)
deriving DecidableEq, Repr

def apply_virt_op (entries : List PageEntry) : VirtOp → List PageEntry
  | VirtOp.inflate i => inflate_page entries i
  | VirtOp.deflate i => deflate_page entries i

def apply_virt_ops (entries : List PageEntry) (ops : List VirtOp) :
    List PageEntry :=
  ops.foldl apply_virt_op entries

/-- The total scroll-content height: each page contributes its slot's
fixed height plus inter-page spacing, the accumulation
_update_visible_pages and jump_to_page perform over the layout. -/
def total_content_height (spacing : Int) (entries : List PageEntry) : Int :=
  (entries.map (fun e => (slot_size e.slot).height + spacing)).sum

/-- Every slot's size agrees with the recorded page geometry. -/
def sizes_match (entries : List PageEntry) : Prop :=
  ∀ e ∈ entries, slot_size e.slot = e.geometry

theorem setup_continuous_view_sizes_match (geoms : List QSize) :
    sizes_match (setup_continuous_view geoms) := by
  intro e he
  simp only [setup_continuous_view, List.mem_map] at he
  obtain ⟨g, _, rfl⟩ := he
  rfl

theorem total_content_height_set (spacing : Int) (entries : List PageEntry)
    (i : Nat) (e e' : PageEntry) (hget : entries[i]? = some e)
    (hh : (slot_size e'.slot).height = (slot_size e.slot).height) :
    total_content_height spacing (entries.set i e')
      = total_content_height spacing entries := by
  have hilen : i < entries.length := by
    by_contra hge
    push_neg at hge
    rw [List.getElem?_eq_none hge] at hget
    exact Option.noConfusion hget
  have hmem : (entries.map (fun e => (slot_size e.slot).height + spacing))[i]?
      = some ((slot_size e.slot).height + spacing) := by
    rw [List.getElem?_map, hget]
    rfl
  have hset_self : (entries.map (fun e => (slot_size e.slot).height +
        spacing)).set i ((slot_size e.slot).height + spacing)
      = entries.map (fun e => (slot_size e.slot).height + spacing) := by
    apply List.ext_getElem?
    intro j
    rw [List.getElem?_set]
    split_ifs with h1 h2
    · rw [← h1, hmem]
    · exact absurd (by simpa using hilen) h2
    · rfl
  unfold total_content_height
  rw [List.map_set, List.sum_set]
  conv_rhs => rw [← hset_self, List.sum_set]
  rw [hh]

theorem inflate_page_of_none (entries : List PageEntry) (i : Nat)
    (hget : entries[i]? = none) : inflate_page entries i = entries := by
  unfold inflate_page
  simp only [hget]

theorem inflate_page_of_widget (entries : List PageEntry) (i : Nat)
    (e : PageEntry) (sz : QSize) (hget : entries[i]? = some e)
    (hslot : e.slot = PageSlot.widget sz) : inflate_page entries i = entries := by
  unfold inflate_page
  simp only [hget, hslot]

theorem inflate_page_of_spacer (entries : List PageEntry) (i : Nat)
    (e : PageEntry) (sz : QSize) (hget : entries[i]? = some e)
    (hslot : e.slot = PageSlot.spacer sz) :
    inflate_page entries i
      = entries.set i { e with slot := PageSlot.widget e.geometry } := by
  unfold inflate_page
  simp only [hget, hslot]

theorem deflate_page_of_none (entries : List PageEntry) (i : Nat)
    (hget : entries[i]? = none) : deflate_page entries i = entries := by
  unfold deflate_page
  simp only [hget]

theorem deflate_page_of_spacer (entries : List PageEntry) (i : Nat)
    (e : PageEntry) (sz : QSize) (hget : entries[i]? = some e)
    (hslot : e.slot = PageSlot.spacer sz) : deflate_page entries i = entries := by
  unfold deflate_page
  simp only [hget, hslot]

theorem deflate_page_of_widget (entries : List PageEntry) (i : Nat)
    (e : PageEntry) (sz : QSize) (hget : entries[i]? = some e)
    (hslot : e.slot = PageSlot.widget sz) :
    deflate_page entries i
      = entries.set i { e with slot := PageSlot.spacer e.geometry } := by
  unfold deflate_page
  simp only [hget, hslot]

theorem inflate_page_height (spacing : Int) (entries : List PageEntry)
    (i : Nat) (hm : sizes_match entries) :
    total_content_height spacing (inflate_page entries i)
      = total_content_height spacing entries := by
  cases hget : entries[i]? with
  | none => rw [inflate_page_of_none entries i hget]
  | some e =>
    cases hslot : e.slot with
    | widget sz => rw [inflate_page_of_widget entries i e sz hget hslot]
    | spacer sz =>
      rw [inflate_page_of_spacer entries i e sz hget hslot]
      apply total_content_height_set spacing entries i e _ hget
      have hsz := hm e (List.getElem?_mem hget)
      rw [hslot] at hsz
      rw [hslot, hsz]
      rfl

theorem deflate_page_height (spacing : Int) (entries : List PageEntry)
    (i : Nat) (hm : sizes_match entries) :
    total_content_height spacing (deflate_page entries i)
      = total_content_height spacing entries := by
  cases hget : entries[i]? with
  | none => rw [deflate_page_of_none entries i hget]
  | some e =>
    cases hslot : e.slot with
    | spacer sz => rw [deflate_page_of_spacer entries i e sz hget hslot]
    | widget sz =>
      rw [deflate_page_of_widget entries i e sz hget hslot]
      apply total_content_height_set spacing entries i e _ hget
      have hsz := hm e (List.getElem?_mem hget)
      rw [hslot] at hsz
      rw [hslot, hsz]
      rfl

theorem inflate_page_sizes_match (entries : List PageEntry) (i : Nat)
    (hm : sizes_match entries) : sizes_match (inflate_page entries i) := by
  cases hget : entries[i]? with
  | none => rw [inflate_page_of_none entries i hget]; exact hm
  | some e =>
    cases hslot : e.slot with
    | widget sz => rw [inflate_page_of_widget entries i e sz hget hslot]; exact hm
    | spacer sz =>
      rw [inflate_page_of_spacer entries i e sz hget hslot]
      intro x hx
      rcases List.mem_or_eq_of_mem_set hx with hx' | rfl
      · exact hm x hx'
      · rfl

theorem deflate_page_sizes_match (entries : List PageEntry) (i : Nat)
    (hm : sizes_match entries) : sizes_match (deflate_page entries i) := by
  cases hget : entries[i]? with
  | none => rw [deflate_page_of_none entries i hget]; exact hm
  | some e =>
    cases hslot : e.slot with
    | spacer sz => rw [deflate_page_of_spacer entries i e sz hget hslot]; exact hm
    | widget sz =>
      rw [deflate_page_of_widget entries i e sz hget hslot]
      intro x hx
      rcases List.mem_or_eq_of_mem_set hx with hx' | rfl
      · exact hm x hx'
      · rfl

theorem apply_virt_op_height (spacing : Int) (entries : List PageEntry)
    (op : VirtOp) (hm : sizes_match entries) :
    total_content_height spacing (apply_virt_op entries op)
      = total_content_height spacing entries := by
  cases op with
  | inflate i => exact inflate_page_height spacing entries i hm
  | deflate i => exact deflate_page_height spacing entries i hm

theorem apply_virt_op_sizes_match (entries : List PageEntry) (op : VirtOp)
    (hm : sizes_match entries) : sizes_match (apply_virt_op entries op) := by
  cases op with
  | inflate i => exact inflate_page_sizes_match entries i hm
  | deflate i => exact deflate_page_sizes_match entries i hm

theorem apply_virt_ops_height (spacing : Int) (ops : List VirtOp) :
    ∀ entries : List PageEntry, sizes_match entries →
      total_content_height spacing (apply_virt_ops entries ops)
        = total_content_height spacing entries := by
  induction ops with
  | nil => intro entries _; rfl
  | cons op rest ih =>
    intro entries hm
    have hstep := apply_virt_op_height spacing entries op hm
    have hm' := apply_virt_op_sizes_match entries op hm
    calc total_content_height spacing
          (apply_virt_ops (apply_virt_op entries op) rest)
        = total_content_height spacing (apply_virt_op entries op) :=
          ih (apply_virt_op entries op) hm'
      _ = total_content_height spacing entries := hstep

/-- Claim C2: starting from the continuous view as _setup_continuous_view
builds it (a spacer of the recorded geometry per page), every sequence of
_inflate_page/_deflate_page operations leaves the total scroll-content
height (per-page slot heights plus spacing) unchanged: a deflated page
becomes a spacer of exactly the recorded _page_geometries size and an
inflated widget is fixed to that same size. -/
theorem c2_layout_neutral_eviction (geoms : List QSize) (spacing : Int)
    (ops : List VirtOp) :
    total_content_height spacing
        (apply_virt_ops (setup_continuous_view geoms) ops)
      = total_content_height spacing (setup_continuous_view geoms) :=
  apply_virt_ops_height spacing ops (setup_continuous_view geoms)
    (setup_continuous_view_sizes_match geoms)

/-- The scroll environment _update_visible_pages reads: the scrollbar
value, the viewport height, and the continuous layout's top margin and
spacing. -/
structure ScrollEnv where
  scroll_value : Int
  viewport_height : Int
  margin_top : Int
  spacing : Int
deriving DecidableEq, Repr

/-- Top of page i: the top margin plus (height + spacing) of every earlier
page — the current_y accumulation of _update_visible_pages (lines 516-533). -/
def page_top (env : ScrollEnv) (heights : List Int) (i : Nat) : Int :=
  env.margin_top + ((heights.take i).map (fun h => h + env.spacing)).sum

/-- Page i's recorded height (the loop indexes _page_geometries inside the
page-count range, so the out-of-range default is never consulted). -/
def page_height_at (heights : List Int) (i : Nat) : Int := (heights[i]?).getD 0

/-- Visibility window of _update_visible_pages (lines 524-530): one
viewport of look-behind and two of look-ahead; page_bottom ≥ scroll − vp
and page_top ≤ scroll + 2·vp. -/
def is_visible (env : ScrollEnv) (heights : List Int) (i : Nat) : Bool :=
  decide (env.scroll_value - env.viewport_height ≤
      page_top env heights i + page_height_at heights i ∧
    page_top env heights i ≤ env.scroll_value + env.viewport_height * 2)

/-- One step of the first loop (lines 535-537): a visible page whose
_page_widgets slot is still None is inflated; the counter tracks the
inflate calls actually performed. -/
def inflate_step (env : ScrollEnv) (heights : List Int)
    (acc : List PageEntry × Nat) (i : Nat) : List PageEntry × Nat :=
  if is_visible env heights i = true ∧ is_widget acc.1 i = false
  then (inflate_page acc.1 i, acc.2 + 1) else acc

/-- One step of the second loop (lines 539-541): a non-visible page still
holding a widget is deflated. -/
def deflate_step (env : ScrollEnv) (heights : List Int)
    (acc : List PageEntry × Nat) (i : Nat) : List PageEntry × Nat :=
  if ¬ is_visible env heights i = true ∧ is_widget acc.1 i = true
  then (deflate_page acc.1 i, acc.2 + 1) else acc

/-- The first loop of _update_visible_pages over all page indices.  The
source iterates sorted(visible_pages) and inflates slots that are None;
folding over every index with the visibility test in the guard performs
exactly the same inflate calls in the same ascending order. -/
def inflate_pass (env : ScrollEnv) (heights : List Int) (n : Nat)
    (start : List PageEntry × Nat) : List PageEntry × Nat :=
  (List.range n).foldl (inflate_step env heights) start

/-- The second loop of _update_visible_pages over all page indices. -/
def deflate_pass (env : ScrollEnv) (heights : List Int) (n : Nat)
    (start : List PageEntry × Nat) : List PageEntry × Nat :=
  (List.range n).foldl (deflate_step env heights) start

/-- _update_visible_pages (pdf_viewer.py lines 504-545): early return when
the widget list is empty (no document or not in continuous mode);
otherwise the visibility window is computed once from _page_geometries and
the inflate and deflate loops run over all page indices (the loop bound
doc.page_count equals the number of entries).  The second component counts
the inflate/deflate transitions performed by the pass. -/
def update_visible_pages (env : ScrollEnv) (entries : List PageEntry) :
    List PageEntry × Nat :=
  if entries.isEmpty then (entries, 0)
  else
    deflate_pass env (entries.map geom_height) entries.length
      (inflate_pass env (entries.map geom_height) entries.length (entries, 0))

theorem getElem?_some_lt {α : Type} (l : List α) (i : Nat) (a : α)
    (hget : l[i]? = some a) : i < l.length := by
  by_contra hge
  push_neg at hge
  rw [List.getElem?_eq_none hge] at hget
  exact Option.noConfusion hget

theorem map_set_self {α β : Type} (f : α → β) (l : List α) (i : Nat)
    (a a' : α) (hget : l[i]? = some a) (hfa : f a' = f a) :
    (l.set i a').map f = l.map f := by
  apply List.ext_getElem?
  intro j
  rw [List.getElem?_map, List.getElem?_map, List.getElem?_set]
  split_ifs with h1 h2
  · subst h1
    rw [hget]
    simp [hfa]
  · exact absurd (getElem?_some_lt l i a hget) h2
  · rfl

theorem inflate_page_length (entries : List PageEntry) (i : Nat) :
    (inflate_page entries i).length = entries.length := by
  cases hget : entries[i]? with
  | none => rw [inflate_page_of_none entries i hget]
  | some e =>
    cases hslot : e.slot with
    | widget sz => rw [inflate_page_of_widget entries i e sz hget hslot]
    | spacer sz =>
      rw [inflate_page_of_spacer entries i e sz hget hslot, List.length_set]

theorem deflate_page_length (entries : List PageEntry) (i : Nat) :
    (deflate_page entries i).length = entries.length := by
  cases hget : entries[i]? with
  | none => rw [deflate_page_of_none entries i hget]
  | some e =>
    cases hslot : e.slot with
    | spacer sz => rw [deflate_page_of_spacer entries i e sz hget hslot]
    | widget sz =>
      rw [deflate_page_of_widget entries i e sz hget hslot, List.length_set]

theorem inflate_page_geom (entries : List PageEntry) (i : Nat) :
    (inflate_page entries i).map geom_height = entries.map geom_height := by
  cases hget : entries[i]? with
  | none => rw [inflate_page_of_none entries i hget]
  | some e =>
    cases hslot : e.slot with
    | widget sz => rw [inflate_page_of_widget entries i e sz hget hslot]
    | spacer sz =>
      rw [inflate_page_of_spacer entries i e sz hget hslot]
      exact map_set_self geom_height entries i e _ hget rfl

theorem deflate_page_geom (entries : List PageEntry) (i : Nat) :
    (deflate_page entries i).map geom_height = entries.map geom_height := by
  cases hget : entries[i]? with
  | none => rw [deflate_page_of_none entries i hget]
  | some e =>
    cases hslot : e.slot with
    | spacer sz => rw [deflate_page_of_spacer entries i e sz hget hslot]
    | widget sz =>
      rw [deflate_page_of_widget entries i e sz hget hslot]
      exact map_set_self geom_height entries i e _ hget rfl

theorem inflate_page_getElem?_ne (entries : List PageEntry) (i j : Nat)
    (hne : i ≠ j) : (inflate_page entries i)[j]? = entries[j]? := by
  cases hget : entries[i]? with
  | none => rw [inflate_page_of_none entries i hget]
  | some e =>
    cases hslot : e.slot with
    | widget sz => rw [inflate_page_of_widget entries i e sz hget hslot]
    | spacer sz =>
      rw [inflate_page_of_spacer entries i e sz hget hslot,
        List.getElem?_set_ne hne]

theorem deflate_page_getElem?_ne (entries : List PageEntry) (i j : Nat)
    (hne : i ≠ j) : (deflate_page entries i)[j]? = entries[j]? := by
  cases hget : entries[i]? with
  | none => rw [deflate_page_of_none entries i hget]
  | some e =>
    cases hslot : e.slot with
    | spacer sz => rw [deflate_page_of_spacer entries i e sz hget hslot]
    | widget sz =>
      rw [deflate_page_of_widget entries i e sz hget hslot,
        List.getElem?_set_ne hne]

theorem is_widget_eq_of_getElem? (l l' : List PageEntry) (j : Nat)
    (h : l[j]? = l'[j]?) : is_widget l j = is_widget l' j := by
  unfold is_widget
  rw [h]

theorem is_widget_inflate_self (entries : List PageEntry) (i : Nat)
    (hlt : i < entries.length) : is_widget (inflate_page entries i) i = true := by
  obtain ⟨e, hget⟩ : ∃ e, entries[i]? = some e :=
    ⟨entries[i], List.getElem?_eq_getElem hlt⟩
  cases hslot : e.slot with
  | widget sz =>
    rw [inflate_page_of_widget entries i e sz hget hslot]
    unfold is_widget
    rw [hget]
    simp only [hslot]
  | spacer sz =>
    rw [inflate_page_of_spacer entries i e sz hget hslot]
    unfold is_widget
    rw [List.getElem?_set_self hlt]

theorem is_widget_deflate_self (entries : List PageEntry) (i : Nat)
    (hlt : i < entries.length) :
    is_widget (deflate_page entries i) i = false := by
  obtain ⟨e, hget⟩ : ∃ e, entries[i]? = some e :=
    ⟨entries[i], List.getElem?_eq_getElem hlt⟩
  cases hslot : e.slot with
  | spacer sz =>
    rw [deflate_page_of_spacer entries i e sz hget hslot]
    unfold is_widget
    rw [hget]
    simp only [hslot]
  | widget sz =>
    rw [deflate_page_of_widget entries i e sz hget hslot]
    unfold is_widget
    rw [List.getElem?_set_self hlt]

theorem is_widget_inflate_mono (entries : List PageEntry) (i j : Nat)
    (hw : is_widget entries j = true) :
    is_widget (inflate_page entries i) j = true := by
  by_cases hij : i = j
  · subst hij
    have hlt : i < entries.length := by
      unfold is_widget at hw
      cases hget : entries[i]? with
      | none => rw [hget] at hw; exact absurd hw (by simp)
      | some e => exact getElem?_some_lt entries i e hget
    rw [is_widget_inflate_self entries i hlt]
  · rw [is_widget_eq_of_getElem? _ entries j
      (inflate_page_getElem?_ne entries i j hij)]
    exact hw

theorem is_widget_deflate_antimono (entries : List PageEntry) (i j : Nat)
    (hw : is_widget entries j = false) :
    is_widget (deflate_page entries i) j = false := by
  by_cases hij : i = j
  · subst hij
    cases hget : entries[i]? with
    | none => rw [deflate_page_of_none entries i hget]; exact hw
    | some e =>
      cases hslot : e.slot with
      | spacer sz => rw [deflate_page_of_spacer entries i e sz hget hslot]; exact hw
      | widget sz =>
        exact absurd hw (by unfold is_widget; rw [hget]; simp [hslot])
  · rw [is_widget_eq_of_getElem? _ entries j
      (deflate_page_getElem?_ne entries i j hij)]
    exact hw

theorem inflate_page_of_is_widget (entries : List PageEntry) (i : Nat)
    (hw : is_widget entries i = true) : inflate_page entries i = entries := by
  unfold is_widget at hw
  cases hget : entries[i]? with
  | none => exact inflate_page_of_none entries i hget
  | some e =>
    cases hslot : e.slot with
    | widget sz => exact inflate_page_of_widget entries i e sz hget hslot
    | spacer sz =>
      rw [hget] at hw
      simp only [hslot] at hw
      exact absurd hw (by simp)

theorem deflate_page_of_not_widget (entries : List PageEntry) (i : Nat)
    (hw : is_widget entries i = false) : deflate_page entries i = entries := by
  unfold is_widget at hw
  cases hget : entries[i]? with
  | none => exact deflate_page_of_none entries i hget
  | some e =>
    cases hslot : e.slot with
    | spacer sz => exact deflate_page_of_spacer entries i e sz hget hslot
    | widget sz =>
      rw [hget] at hw
      simp only [hslot] at hw
      exact absurd hw (by simp)

theorem inflate_fold_spec (env : ScrollEnv) (heights : List Int)
    (l : List Nat) : ∀ start : List PageEntry × Nat,
    ((l.foldl (inflate_step env heights) start).1.length = start.1.length) ∧
    ((l.foldl (inflate_step env heights) start).1.map geom_height
      = start.1.map geom_height) ∧
    (∀ j, is_visible env heights j = false →
      (l.foldl (inflate_step env heights) start).1[j]? = start.1[j]?) ∧
    (∀ j, is_widget start.1 j = true →
      is_widget (l.foldl (inflate_step env heights) start).1 j = true) ∧
    (∀ j ∈ l, is_visible env heights j = true → j < start.1.length →
      is_widget (l.foldl (inflate_step env heights) start).1 j = true) := by
  induction l with
  | nil =>
    intro start
    exact ⟨rfl, rfl, fun j _ => rfl, fun j h => h, by simp⟩
  | cons i rest ih =>
    intro start
    rw [List.foldl_cons]
    obtain ⟨ih1, ih2, ih3, ih4, ih5⟩ := ih (inflate_step env heights start i)
    have hslen : (inflate_step env heights start i).1.length
        = start.1.length := by
      unfold inflate_step
      split_ifs with hg
      · exact inflate_page_length start.1 i
      · rfl
    have hsgeom : (inflate_step env heights start i).1.map geom_height
        = start.1.map geom_height := by
      unfold inflate_step
      split_ifs with hg
      · exact inflate_page_geom start.1 i
      · rfl
    have hsunt : ∀ j, is_visible env heights j = false →
        (inflate_step env heights start i).1[j]? = start.1[j]? := by
      intro j hj
      unfold inflate_step
      split_ifs with hg
      · have hne : i ≠ j := by
          intro he
          rw [he, hj] at hg
          exact Bool.noConfusion hg.1
        exact inflate_page_getElem?_ne start.1 i j hne
      · rfl
    have hsmono : ∀ j, is_widget start.1 j = true →
        is_widget (inflate_step env heights start i).1 j = true := by
      intro j hj
      unfold inflate_step
      split_ifs with hg
      · exact is_widget_inflate_mono start.1 i j hj
      · exact hj
    refine ⟨ih1.trans hslen, ih2.trans hsgeom, ?_, ?_, ?_⟩
    · intro j hj
      rw [ih3 j hj]
      exact hsunt j hj
    · intro j hj
      exact ih4 j (hsmono j hj)
    · intro j hjmem hvis hlt
      rcases List.mem_cons.mp hjmem with rfl | hmem
      · apply ih4
        unfold inflate_step
        split_ifs with hg
        · exact is_widget_inflate_self start.1 j hlt
        · push_neg at hg
          have hne := hg hvis
          cases hcase : is_widget start.1 j
          · exact absurd hcase hne
          · rfl
      · exact ih5 j hmem hvis (by rw [hslen]; exact hlt)

theorem deflate_fold_spec (env : ScrollEnv) (heights : List Int)
    (l : List Nat) : ∀ start : List PageEntry × Nat,
    ((l.foldl (deflate_step env heights) start).1.length = start.1.length) ∧
    ((l.foldl (deflate_step env heights) start).1.map geom_height
      = start.1.map geom_height) ∧
    (∀ j, is_visible env heights j = true →
      (l.foldl (deflate_step env heights) start).1[j]? = start.1[j]?) ∧
    (∀ j, is_widget start.1 j = false →
      is_widget (l.foldl (deflate_step env heights) start).1 j = false) ∧
    (∀ j ∈ l, is_visible env heights j = false → j < start.1.length →
      is_widget (l.foldl (deflate_step env heights) start).1 j = false) := by
  induction l with
  | nil =>
    intro start
    exact ⟨rfl, rfl, fun j _ => rfl, fun j h => h, by simp⟩
  | cons i rest ih =>
    intro start
    rw [List.foldl_cons]
    obtain ⟨ih1, ih2, ih3, ih4, ih5⟩ := ih (deflate_step env heights start i)
    have hslen : (deflate_step env heights start i).1.length
        = start.1.length := by
      unfold deflate_step
      split_ifs with hg
      · exact deflate_page_length start.1 i
      · rfl
    have hsgeom : (deflate_step env heights start i).1.map geom_height
        = start.1.map geom_height := by
      unfold deflate_step
      split_ifs with hg
      · exact deflate_page_geom start.1 i
      · rfl
    have hsunt : ∀ j, is_visible env heights j = true →
        (deflate_step env heights start i).1[j]? = start.1[j]? := by
      intro j hj
      unfold deflate_step
      split_ifs with hg
      · have hne : i ≠ j := by
          intro he
          rw [he, hj] at hg
          exact hg.1 rfl
        exact deflate_page_getElem?_ne start.1 i j hne
      · rfl
    have hsmono : ∀ j, is_widget start.1 j = false →
        is_widget (deflate_step env heights start i).1 j = false := by
      intro j hj
      unfold deflate_step
      split_ifs with hg
      · exact is_widget_deflate_antimono start.1 i j hj
      · exact hj
    refine ⟨ih1.trans hslen, ih2.trans hsgeom, ?_, ?_, ?_⟩
    · intro j hj
      rw [ih3 j hj]
      exact hsunt j hj
    · intro j hj
      exact ih4 j (hsmono j hj)
    · intro j hjmem hvis hlt
      rcases List.mem_cons.mp hjmem with rfl | hmem
      · apply ih4
        unfold deflate_step
        split_ifs with hg
        · exact is_widget_deflate_self start.1 j hlt
        · push_neg at hg
          have hne := hg (by rw [hvis]; exact Bool.noConfusion)
          cases hcase : is_widget start.1 j
          · rfl
          · exact absurd hcase hne
      · exact ih5 j hmem hvis (by rw [hslen]; exact hlt)

theorem inflate_pass_spec (env : ScrollEnv) (heights : List Int) (n : Nat)
    (start : List PageEntry × Nat) :
    ((inflate_pass env heights n start).1.length = start.1.length) ∧
    ((inflate_pass env heights n start).1.map geom_height
      = start.1.map geom_height) ∧
    (∀ j, is_visible env heights j = false →
      (inflate_pass env heights n start).1[j]? = start.1[j]?) ∧
    (∀ j, is_widget start.1 j = true →
      is_widget (inflate_pass env heights n start).1 j = true) ∧
    (∀ j, j < n → is_visible env heights j = true → j < start.1.length →
      is_widget (inflate_pass env heights n start).1 j = true) := by
  obtain ⟨h1, h2, h3, h4, h5⟩ :=
    inflate_fold_spec env heights (List.range n) start
  exact ⟨h1, h2, h3, h4, fun j hj => h5 j (List.mem_range.mpr hj)⟩

theorem deflate_pass_spec (env : ScrollEnv) (heights : List Int) (n : Nat)
    (start : List PageEntry × Nat) :
    ((deflate_pass env heights n start).1.length = start.1.length) ∧
    ((deflate_pass env heights n start).1.map geom_height
      = start.1.map geom_height) ∧
    (∀ j, is_visible env heights j = true →
      (deflate_pass env heights n start).1[j]? = start.1[j]?) ∧
    (∀ j, is_widget start.1 j = false →
      is_widget (deflate_pass env heights n start).1 j = false) ∧
    (∀ j, j < n → is_visible env heights j = false → j < start.1.length →
      is_widget (deflate_pass env heights n start).1 j = false) := by
  obtain ⟨h1, h2, h3, h4, h5⟩ :=
    deflate_fold_spec env heights (List.range n) start
  exact ⟨h1, h2, h3, h4, fun j hj => h5 j (List.mem_range.mpr hj)⟩

theorem foldl_fixed {α β : Type} (f : β → α → β) (l : List α) (b : β)
    (h : ∀ a ∈ l, f b a = b) : l.foldl f b = b := by
  induction l with
  | nil => rfl
  | cons x xs ih =>
    rw [List.foldl_cons, h x (List.mem_cons_self x xs)]
    exact ih (fun a ha => h a (List.mem_cons_of_mem x ha))

theorem inflate_pass_fixed (env : ScrollEnv) (heights : List Int) (n : Nat)
    (s : List PageEntry)
    (h : ∀ i, i < n →
      ¬ (is_visible env heights i = true ∧ is_widget s i = false)) :
    inflate_pass env heights n (s, 0) = (s, 0) := by
  unfold inflate_pass
  apply foldl_fixed
  intro i hi
  unfold inflate_step
  rw [if_neg (h i (List.mem_range.mp hi))]

theorem deflate_pass_fixed (env : ScrollEnv) (heights : List Int) (n : Nat)
    (s : List PageEntry)
    (h : ∀ i, i < n →
      ¬ (¬ is_visible env heights i = true ∧ is_widget s i = true)) :
    deflate_pass env heights n (s, 0) = (s, 0) := by
  unfold deflate_pass
  apply foldl_fixed
  intro i hi
  unfold deflate_step
  rw [if_neg (h i (List.mem_range.mp hi))]

theorem update_visible_pages_stable (env : ScrollEnv) (s : List PageEntry)
    (hne : s.isEmpty = false)
    (h3 : ∀ i, i < s.length →
      is_visible env (s.map geom_height) i = true → is_widget s i = true)
    (h4 : ∀ i, i < s.length →
      is_visible env (s.map geom_height) i = false → is_widget s i = false) :
    update_visible_pages env s = (s, 0) := by
  unfold update_visible_pages
  rw [if_neg (by simp [hne])]
  have hinf : inflate_pass env (s.map geom_height) s.length (s, 0) = (s, 0) := by
    apply inflate_pass_fixed
    intro i hi hcontra
    rw [h3 i hi hcontra.1] at hcontra
    exact Bool.noConfusion hcontra.2
  rw [hinf]
  apply deflate_pass_fixed
  intro i hi hcontra
  cases hvis : is_visible env (s.map geom_height) i
  · rw [h4 i hi hvis] at hcontra
    exact Bool.noConfusion hcontra.2
  · exact hcontra.1 hvis

/-- Claim C8: the virtualization pass is idempotent: running
_update_visible_pages a second time with the same scroll position and
viewport produces the same slot assignment and performs zero additional
inflate/deflate transitions, because _inflate_page is a no-op on a page
that already has a widget and _deflate_page is a no-op on a page that is
already a placeholder. -/
theorem c8_virtualization_idempotent :
    (∀ (env : ScrollEnv) (entries : List PageEntry),
      update_visible_pages env (update_visible_pages env entries).1
        = ((update_visible_pages env entries).1, 0)) ∧
    (∀ (entries : List PageEntry) (i : Nat), is_widget entries i = true →
      inflate_page entries i = entries) ∧
    (∀ (entries : List PageEntry) (i : Nat), is_widget entries i = false →
      deflate_page entries i = entries) := by
  refine ⟨?_, inflate_page_of_is_widget, deflate_page_of_not_widget⟩
  intro env entries
  by_cases hemp : entries.isEmpty
  · have h1 : update_visible_pages env entries = (entries, 0) := by
      unfold update_visible_pages
      rw [if_pos hemp]
    rw [h1]
    exact h1
  · have h1 : update_visible_pages env entries
        = deflate_pass env (entries.map geom_height) entries.length
            (inflate_pass env (entries.map geom_height) entries.length
              (entries, 0)) := by
      unfold update_visible_pages
      rw [if_neg hemp]
    obtain ⟨i1len, i1geom, i1unt, i1mono, i1proc⟩ :=
      inflate_pass_spec env (entries.map geom_height) entries.length
        (entries, 0)
    obtain ⟨d1len, d1geom, d1unt, d1mono, d1proc⟩ :=
      deflate_pass_spec env (entries.map geom_height) entries.length
        (inflate_pass env (entries.map geom_height) entries.length
          (entries, 0))
    rw [h1]
    have hr2len : (deflate_pass env (entries.map geom_height) entries.length
        (inflate_pass env (entries.map geom_height) entries.length
          (entries, 0))).1.length = entries.length := d1len.trans i1len
    have hr2geom : (deflate_pass env (entries.map geom_height) entries.length
        (inflate_pass env (entries.map geom_height) entries.length
          (entries, 0))).1.map geom_height = entries.map geom_height :=
      d1geom.trans i1geom
    apply update_visible_pages_stable
    · cases hb : (deflate_pass env (entries.map geom_height) entries.length
          (inflate_pass env (entries.map geom_height) entries.length
            (entries, 0))).1.isEmpty
      · rfl
      · exfalso
        apply hemp
        rw [List.isEmpty_iff_length_eq_zero] at hb ⊢
        rw [← hr2len]
        exact hb
    · intro i hi hvis
      rw [hr2len] at hi
      rw [hr2geom] at hvis
      rw [is_widget_eq_of_getElem? _ _ i (d1unt i hvis)]
      exact i1proc i hi hvis hi
    · intro i hi hvis
      rw [hr2len] at hi
      rw [hr2geom] at hvis
      exact d1proc i hi hvis (by rw [i1len]; exact hi)

/-- Witness for c8_virtualization_idempotent at a concrete two-page view:
a second pass changes nothing and counts zero transitions; _inflate_page
leaves a materialized page alone; _deflate_page leaves a placeholder
alone. -/
theorem c8_virtualization_idempotent_witness :
    update_visible_pages ⟨0, 50, 5, 10⟩
        (update_visible_pages ⟨0, 50, 5, 10⟩
          (setup_continuous_view [⟨80, 100⟩, ⟨80, 100⟩])).1
      = ((update_visible_pages ⟨0, 50, 5, 10⟩
          (setup_continuous_view [⟨80, 100⟩, ⟨80, 100⟩])).1, 0) ∧
    inflate_page [⟨⟨80, 100⟩, PageSlot.widget ⟨80, 100⟩⟩] 0
      = [⟨⟨80, 100⟩, PageSlot.widget ⟨80, 100⟩⟩] ∧
    deflate_page [⟨⟨80, 100⟩, PageSlot.spacer ⟨80, 100⟩⟩] 0
      = [⟨⟨80, 100⟩, PageSlot.spacer ⟨80, 100⟩⟩] :=
  ⟨c8_virtualization_idempotent.1 ⟨0, 50, 5, 10⟩
     (setup_continuous_view [⟨80, 100⟩, ⟨80, 100⟩]),
   c8_virtualization_idempotent.2.1 [⟨⟨80, 100⟩, PageSlot.widget ⟨80, 100⟩⟩] 0
     (by decide),
   c8_virtualization_idempotent.2.2 [⟨⟨80, 100⟩, PageSlot.spacer ⟨80, 100⟩⟩] 0
     (by decide)⟩

/-- A tiny object heap for Python list objects: list values live in cells
and variables hold references (cell indices).  The viewer's _bookmarks
field is the cell viewer_ref points to; aliasing versus copying is
observable as reference equality. -/
structure BookmarkHeap where
  cells : List (List Bookmark)
  viewer_ref : Nat
deriving DecidableEq, Repr

/-- Dereference a list object (a dangling reference reads as empty; the
program never creates one). -/
def read_cell (h : BookmarkHeap) (r : Nat) : List Bookmark :=
  (h.cells[r]?).getD []

/-- In-place mutation of the list object behind reference r: append,
remove or reorder — any replacement of the old contents. -/
def write_cell (h : BookmarkHeap) (r : Nat) (l : List Bookmark) :
    BookmarkHeap :=
  { h with cells := h.cells.set r l }

/-- get_bookmarks (pdf_viewer.py lines 1121-1127): returns
self._bookmarks.copy(), a freshly allocated list object holding the same
elements; the viewer keeps pointing at its own unchanged cell. -/
def get_bookmarks (h : BookmarkHeap) : BookmarkHeap × Nat :=
  ({ h with cells := h.cells ++ [read_cell h h.viewer_ref] }, h.cells.length)

/-- has_bookmark (pdf_viewer.py lines 1129-1135): scans the stored
_bookmarks list for the page. -/
def has_bookmark (h : BookmarkHeap) (page_number : Int) : Bool :=
  (read_cell h h.viewer_ref).any (fun b => b.page_number = page_number)

/-- Claim C10: get_bookmarks returns a copy, not an alias: the returned
reference differs from the stored one, it holds the same elements, and
any in-place mutation of the returned list leaves the stored bookmark
cell unchanged, so a subsequent has_bookmark (or read of _bookmarks)
observes the same set as before the mutation. -/
theorem c10_get_bookmarks_copy (h : BookmarkHeap)
    (hvalid : h.viewer_ref < h.cells.length)
    (f : List Bookmark → List Bookmark) (p : Int) :
    (get_bookmarks h).2 ≠ h.viewer_ref ∧
    read_cell (get_bookmarks h).1 (get_bookmarks h).2
      = read_cell h h.viewer_ref ∧
    read_cell (write_cell (get_bookmarks h).1 (get_bookmarks h).2
        (f (read_cell (get_bookmarks h).1 (get_bookmarks h).2)))
        h.viewer_ref
      = read_cell h h.viewer_ref ∧
    has_bookmark (write_cell (get_bookmarks h).1 (get_bookmarks h).2
        (f (read_cell (get_bookmarks h).1 (get_bookmarks h).2))) p
      = has_bookmark h p := by
  have href : (get_bookmarks h).2 = h.cells.length := rfl
  have hne : (get_bookmarks h).2 ≠ h.viewer_ref := by
    rw [href]
    omega
  have hfresh : read_cell (get_bookmarks h).1 (get_bookmarks h).2
      = read_cell h h.viewer_ref := by
    unfold get_bookmarks read_cell
    simp only [List.getElem?_concat_length]
    rfl
  have hstored : ∀ l, read_cell (write_cell (get_bookmarks h).1
      (get_bookmarks h).2 l) h.viewer_ref = read_cell h h.viewer_ref := by
    intro l
    unfold write_cell read_cell get_bookmarks
    simp only
    rw [List.getElem?_set_ne (by omega)]
    rw [List.getElem?_append, if_pos hvalid]
  refine ⟨hne, hfresh, hstored _, ?_⟩
  unfold has_bookmark
  have hvr : (write_cell (get_bookmarks h).1 (get_bookmarks h).2
      (f (read_cell (get_bookmarks h).1 (get_bookmarks h).2))).viewer_ref
      = h.viewer_ref := rfl
  rw [hvr, hstored _]

/-- Witness for c10_get_bookmarks_copy: one stored bookmark; the returned
copy is cleared in place and the stored cell still holds the bookmark. -/
theorem c10_get_bookmarks_copy_witness :
    (get_bookmarks ⟨[[⟨"Page 4", 3, "doc.pdf", none⟩]], 0⟩).2 ≠ 0 ∧
    read_cell (get_bookmarks ⟨[[⟨"Page 4", 3, "doc.pdf", none⟩]], 0⟩).1
        (get_bookmarks ⟨[[⟨"Page 4", 3, "doc.pdf", none⟩]], 0⟩).2
      = read_cell ⟨[[⟨"Page 4", 3, "doc.pdf", none⟩]], 0⟩ 0 ∧
    read_cell (write_cell
        (get_bookmarks ⟨[[⟨"Page 4", 3, "doc.pdf", none⟩]], 0⟩).1
        (get_bookmarks ⟨[[⟨"Page 4", 3, "doc.pdf", none⟩]], 0⟩).2
        ((fun _ => [])
          (read_cell (get_bookmarks ⟨[[⟨"Page 4", 3, "doc.pdf", none⟩]], 0⟩).1
            (get_bookmarks ⟨[[⟨"Page 4", 3, "doc.pdf", none⟩]], 0⟩).2))) 0
      = read_cell ⟨[[⟨"Page 4", 3, "doc.pdf", none⟩]], 0⟩ 0 ∧
    has_bookmark (write_cell
        (get_bookmarks ⟨[[⟨"Page 4", 3, "doc.pdf", none⟩]], 0⟩).1
        (get_bookmarks ⟨[[⟨"Page 4", 3, "doc.pdf", none⟩]], 0⟩).2
        ((fun _ => [])
          (read_cell (get_bookmarks ⟨[[⟨"Page 4", 3, "doc.pdf", none⟩]], 0⟩).1
            (get_bookmarks ⟨[[⟨"Page 4", 3, "doc.pdf", none⟩]], 0⟩).2))) 3
      = has_bookmark ⟨[[⟨"Page 4", 3, "doc.pdf", none⟩]], 0⟩ 3 :=
  c10_get_bookmarks_copy ⟨[[⟨"Page 4", 3, "doc.pdf", none⟩]], 0⟩
    (by decide) (fun _ => []) 3

end PdfReader
